import Mathlib

/-!
Mini Feedback Board: validation and request handlers of `backend/index.js`.

A shallow embedding of the Express handlers `POST /api/messages`, `POST /api/vote` and
`GET /api/messages` together with their two validation helpers, followed by theorems
comparing them with the behaviour the specification attributes to them.

Modelling conventions.

* A JavaScript string is the list of its UTF-16 code units, so `.length` is `List.length`.
* A JavaScript number is `JSNumber`: a finite value is carried by its exact rational value
  (comparison and truthiness of IEEE doubles agree with those of the rationals they denote).
* The Supabase client is an external collaborator: it is a record of functions threading an
  abstract store state, and every handler returns the list of calls it issued to it.
* A thrown `TypeError` is an `Except.error`; the handlers' `try/catch` turns it into a 500.
-/

namespace FeedbackBoard

/-! ## JavaScript values -/

/-- A JavaScript string, as its sequence of UTF-16 code units. -/
abbrev JSString := List Nat

/-- A JavaScript number: `NaN`, a finite value (given by its exact rational value; `-0` is
`0`), or one of the two infinities. -/
inductive JSNumber where
  | nan
  | fin (q : ℚ)
  | posInf
  | negInf
  deriving DecidableEq

/-- A value as found in a property of a parsed JSON request body. `undefined` is what reading
a property the body does not have yields; `obj` stands for any array or object. -/
inductive JSValue where
  | undefined
  | null
  | bool (b : Bool)
  | num (n : JSNumber)
  | str (s : JSString)
  | obj
  deriving DecidableEq

/-- An exception thrown while a handler runs. -/
inductive Thrown where
  | typeError (message : String)
  deriving DecidableEq

deriving instance DecidableEq for Except

/-- ECMAScript `ToBoolean` on a number: `NaN` and zero are falsy. -/
def JSNumber.truthy : JSNumber → Bool
  | .nan => false
  | .fin q => decide (q ≠ 0)
  | .posInf => true
  | .negInf => true

/-- ECMAScript `ToBoolean`: `undefined`, `null`, `false`, `0`, `NaN` and `""` are falsy. -/
def JSValue.truthy : JSValue → Bool
  | .undefined => false
  | .null => false
  | .bool b => b
  | .num n => n.truthy
  | .str s => !s.isEmpty
  | .obj => true

/-- The relation `a < b` on numbers (`IsLessThan`); any comparison with `NaN` is false. -/
def JSNumber.lt : JSNumber → JSNumber → Bool
  | .nan, _ => false
  | _, .nan => false
  | .fin a, .fin b => decide (a < b)
  | .fin _, .posInf => true
  | .fin _, .negInf => false
  | .posInf, _ => false
  | .negInf, .negInf => false
  | .negInf, _ => true

/-- The code units removed by `String.prototype.trim`: ECMAScript WhiteSpace and
LineTerminator. -/
def isTrimmable (c : Nat) : Bool :=
  c = 0x09 || c = 0x0A || c = 0x0B || c = 0x0C || c = 0x0D || c = 0x20 || c = 0xA0 ||
  c = 0x1680 || (0x2000 ≤ c && c ≤ 0x200A) || c = 0x2028 || c = 0x2029 || c = 0x202F ||
  c = 0x205F || c = 0x3000 || c = 0xFEFF

/-- The method `String.prototype.trim`: strips white space from both ends. -/
def trim (s : JSString) : JSString :=
  ((s.dropWhile isTrimmable).reverse.dropWhile isTrimmable).reverse

/-- The call `v.trim()` on an arbitrary value: only strings have the method, reading a
property of `undefined` or `null` throws, and calling the missing method of any other value
throws. -/
def JSValue.callTrim : JSValue → Except Thrown JSString
  | .str s => .ok (trim s)
  | .undefined => .error (.typeError "Cannot read properties of undefined (reading trim)")
  | .null => .error (.typeError "Cannot read properties of null (reading trim)")
  | _ => .error (.typeError "trim is not a function")

/-- The test `v && v.length > k` of `validateMessageInput`. A falsy `v` short-circuits; a
string compares its length; numbers and booleans have no `length`, and `undefined > k` is
false. For `obj` the test is never reached: the `trim` call on the same value has thrown
before (see `validateMessageInput_obj_name`). -/
def JSValue.longerThan (v : JSValue) (k : Nat) : Bool :=
  match v with
  | .str s => !s.isEmpty && decide (s.length > k)
  | _ => false

/-- The values of the `rating` property covered by the model: those the runtime converts to a
number without parsing a string (absent, `null`, booleans, numbers). A string, array or
object rating is outside the model. -/
inductive RatingValue where
  | undefined
  | null
  | bool (b : Bool)
  | num (n : JSNumber)
  deriving DecidableEq

/-- ECMAScript `ToBoolean` on a rating. -/
def RatingValue.truthy : RatingValue → Bool
  | .undefined => false
  | .null => false
  | .bool b => b
  | .num n => n.truthy

/-- ECMAScript `ToNumber` on a rating: `undefined` is `NaN`, `null` and `false` are `0`,
`true` is `1`. -/
def RatingValue.toNumber : RatingValue → JSNumber
  | .undefined => .nan
  | .null => .fin 0
  | .bool b => if b then .fin 1 else .fin 0
  | .num n => n

/-- The global `parseInt` applied to a rating; `none` is `NaN`. The argument is first
converted to a string: `"undefined"`, `"null"`, `"true"`, `"false"`, `"NaN"` and
`"Infinity"` have no leading digits. A finite number is printed in plain decimal notation
whenever it is zero or `1e-6 ≤ |q| < 1e21`, and `parseInt` then keeps its integer part; the
handler only calls `parseInt` after validation, when a finite truthy rating lies in
`[1, 5]`, so the exponent notation of the remaining numbers is never parsed. -/
def parseInt : RatingValue → Option Int
  | .num (.fin q) => some (q.num.tdiv q.den)
  | _ => none

/-! ## Message validation (`index.js`, lines 16-43) -/

/-- The object `{ name, message, rating }` handed to `validateMessageInput`. -/
structure MessageData where
  name : JSValue
  message : JSValue
  rating : RatingValue
  deriving DecidableEq

/-- The test `!v || v.trim() === ""` of the two required-field checks. -/
def JSValue.missingOrBlank (v : JSValue) : Except Thrown Bool :=
  if !v.truthy then .ok true
  else
    match v.callTrim with
    | .error e => .error e
    | .ok t => .ok (decide (t = []))

/-- The test `data.rating && (data.rating < 1 || data.rating > 5)`. -/
def RatingValue.outOfRange (r : RatingValue) : Bool :=
  r.truthy && (r.toNumber.lt (.fin 1) || JSNumber.lt (.fin 5) r.toNumber)

/-- The helper `validateMessageInput`: the error strings are pushed in source order; a
`TypeError` raised by one of the two `trim` calls aborts the function. -/
def validateMessageInput (data : MessageData) : Except Thrown (List String) :=
  match data.name.missingOrBlank with
  | .error e => .error e
  | .ok nameMissing =>
    match data.message.missingOrBlank with
    | .error e => .error e
    | .ok messageMissing =>
      .ok ((if nameMissing then ["Name is required"] else []) ++
        (if messageMissing then ["Message is required"] else []) ++
        (if data.rating.outOfRange then ["Rating must be between 1 and 5"] else []) ++
        (if data.name.longerThan 100 then ["Name must be less than 100 characters"] else []) ++
        (if data.message.longerThan 1000 then
          ["Message must be less than 1000 characters"] else []))

/-! ## The store client and the response envelope -/

/-- The object `newMessage` inserted by `POST /api/messages` (lines 61-67); a `rating` of
`none` is `NaN`. -/
structure NewMessage where
  name : JSString
  message : JSString
  rating : Option Int
  upvotes : Int
  downvotes : Int
  deriving DecidableEq

/-- A row of the table `messages` as the store returns it. -/
structure Row where
  id : JSValue
  name : JSString
  message : JSString
  rating : Int
  upvotes : Int
  downvotes : Int
  created_at : JSString
  deriving DecidableEq

/-- The error object of a store reply; only its `message` is read. -/
structure StoreError where
  message : String
  deriving DecidableEq

/-- The pair `{ data, error }` every awaited store query resolves to; `none` is `null`. -/
structure Reply (α : Type) where
  data : Option α
  error : Option StoreError
  deriving DecidableEq

/-- The object `updateData` of `POST /api/vote`: the fields it sets, with their values. -/
abbrev UpdateData := List (String × Int)

/-- The client exported by `config/database.js`, restricted to the four queries the handlers
build on the table `messages`; each threads the store state `σ`. -/
structure StoreClient (σ : Type) where
  /-- The query `.insert(rows).select()`. -/
  insertSelect : List NewMessage → σ → Reply (List Row) × σ
  /-- The query `.select("*").eq("id", id).single()`. -/
  selectSingle : JSValue → σ → Reply Row × σ
  /-- The query `.update(values).eq("id", id).select()`. -/
  updateSelect : UpdateData → JSValue → σ → Reply (List Row) × σ
  /-- The query `.select("*").order("created_at", { ascending: false })`. -/
  selectOrdered : σ → Reply (List Row) × σ

/-- A query issued to the store client, as recorded in a handler run. -/
inductive StoreCall where
  | insert (rows : List NewMessage)
  | selectSingle (id : JSValue)
  | update (values : UpdateData) (id : JSValue)
  | selectOrdered
  deriving DecidableEq

/-- The `data` object of a success envelope; a property that is absent or `undefined` (and so
dropped by the JSON serialisation) is `none`. -/
structure ResponseData where
  message : Option Row := none
  messages : Option (List Row) := none
  count : Option Nat := none
  voteType : Option JSValue := none
  timestamp : Option Nat := none
  deriving DecidableEq

/-- The JSON body passed to `res.json`. -/
structure Body where
  message : String
  status : String
  errors : Option (List String) := none
  error : Option String := none
  data : Option ResponseData := none
  deriving DecidableEq

/-- An HTTP response: the status code (200 unless `res.status` is called) and the body. -/
structure Response where
  code : Nat
  body : Body
  deriving DecidableEq

/-- The result of running a handler: the response sent, the store queries issued in order,
and the store state afterwards. -/
structure Outcome (σ : Type) where
  response : Response
  calls : List StoreCall
  store : σ

/-- The `message` property of a thrown error. -/
def Thrown.message : Thrown → String
  | .typeError m => m

/-- The response built by the `catch` blocks of the handlers. -/
def internalError (e : Thrown) : Response :=
  { code := 500
    body := { message := "Internal server error", status := "error", error := some e.message } }

/-- The 400 response sent when a validator returns errors. -/
def validationFailed (validationErrors : List String) : Response :=
  { code := 400
    body := { message := "Validation failed", status := "error",
              errors := some validationErrors } }

/-- The expression `data[0]` on the `data` of a reply: indexing `null` throws, indexing an
empty array yields `undefined` (`none`). -/
def firstRow (data : Option (List Row)) : Except Thrown (Option Row) :=
  match data with
  | none => .error (.typeError "Cannot read properties of null (reading 0)")
  | some rows => .ok rows.head?

/-! ## `POST /api/messages` (`index.js`, lines 45-102) -/

/-- The properties the handler reads from `req.body`; a property the body lacks is
`undefined`. -/
structure CreateBody where
  name : JSValue
  message : JSValue
  rating : RatingValue
  deriving DecidableEq

/-- The destructuring default `rating = 5`, which applies to `undefined` only. -/
def defaultRating (rating : RatingValue) : RatingValue :=
  match rating with
  | .undefined => .num (.fin 5)
  | r => r

/-- The object literal `newMessage` (lines 61-67); the two `trim` calls may throw. -/
def buildNewMessage (name message : JSValue) (rating : RatingValue) :
    Except Thrown NewMessage :=
  match name.callTrim with
  | .error e => .error e
  | .ok n =>
    match message.callTrim with
    | .error e => .error e
    | .ok m =>
      .ok { name := n, message := m, rating := parseInt rating, upvotes := 0, downvotes := 0 }

/-- The handler of `POST /api/messages`; `now` is the clock reading used for the
timestamp. -/
def postMessages {σ : Type} (supabase : StoreClient σ) (now : Nat) (body : CreateBody)
    (s : σ) : Outcome σ :=
  let name := body.name
  let message := body.message
  let rating := defaultRating body.rating
  match validateMessageInput { name := name, message := message, rating := rating } with
  | .error e => { response := internalError e, calls := [], store := s }
  | .ok validationErrors =>
    if validationErrors.length > 0 then
      { response := validationFailed validationErrors, calls := [], store := s }
    else
      match buildNewMessage name message rating with
      | .error e => { response := internalError e, calls := [], store := s }
      | .ok newMessage =>
        let (reply, s1) := supabase.insertSelect [newMessage] s
        let calls := [StoreCall.insert [newMessage]]
        match reply.error with
        | some error =>
          { response :=
              { code := 500
                body := { message := "Failed to create message", status := "error",
                          error := some error.message } }
            calls := calls, store := s1 }
        | none =>
          match firstRow reply.data with
          | .error e => { response := internalError e, calls := calls, store := s1 }
          | .ok row =>
            { response :=
                { code := 201
                  body := { message := "Message created successfully", status := "success",
                            data := some { message := row, timestamp := some now } } }
              calls := calls, store := s1 }

/-! ## Vote validation and `POST /api/vote` (`index.js`, lines 104-199) -/

/-- The code units of a string literal of the source (used on ASCII literals only, where a
character is one code unit). -/
def codeUnits (lit : String) : JSString :=
  lit.toList.map Char.toNat

/-- The string `"upvote"`. -/
def upvote : JSString := codeUnits "upvote"

/-- The string `"downvote"`. -/
def downvote : JSString := codeUnits "downvote"

/-- The object `{ messageId, voteType }` handed to `validateVoteInput`, which is also what
the handler reads from `req.body`. -/
structure VoteData where
  messageId : JSValue
  voteType : JSValue
  deriving DecidableEq

/-- The call `["upvote", "downvote"].includes(v)`: only the two strings are found. -/
def isVoteType (v : JSValue) : Bool :=
  decide (v = .str upvote) || decide (v = .str downvote)

/-- The helper `validateVoteInput`; it never throws. -/
def validateVoteInput (data : VoteData) : List String :=
  (if !data.messageId.truthy then ["Message ID is required"] else []) ++
  (if !data.voteType.truthy then ["Vote type is required"] else []) ++
  (if data.voteType.truthy && !isVoteType data.voteType then
    ["Vote type must be either \"upvote\" or \"downvote\""] else [])

/-- The object `updateData` (lines 157-162): one counter of the fetched row, plus one. -/
def buildUpdateData (voteType : JSValue) (currentMessage : Row) : UpdateData :=
  if voteType = .str upvote then [("upvotes", currentMessage.upvotes + 1)]
  else [("downvotes", currentMessage.downvotes + 1)]

/-- The template literal of line 183. It is evaluated after validation only, when `voteType`
is one of the two strings. -/
def recordedMessage (voteType : JSValue) : String :=
  if voteType = .str upvote then "upvote recorded successfully"
  else "downvote recorded successfully"

/-- The 404 response of lines 149-153. -/
def messageNotFound : Response :=
  { code := 404
    body := { message := "Message not found", status := "error",
              error := some "No message found with the provided ID" } }

/-- The handler of `POST /api/vote`. -/
def postVote {σ : Type} (supabase : StoreClient σ) (now : Nat) (body : VoteData) (s : σ) :
    Outcome σ :=
  let messageId := body.messageId
  let voteType := body.voteType
  let validationErrors := validateVoteInput { messageId := messageId, voteType := voteType }
  if validationErrors.length > 0 then
    { response := validationFailed validationErrors, calls := [], store := s }
  else
    let (fetched, s1) := supabase.selectSingle messageId s
    match fetched.error, fetched.data with
    | none, some currentMessage =>
      let updateData := buildUpdateData voteType currentMessage
      let (reply, s2) := supabase.updateSelect updateData messageId s1
      let calls := [StoreCall.selectSingle messageId, StoreCall.update updateData messageId]
      match reply.error with
      | some error =>
        { response :=
            { code := 500
              body := { message := "Failed to update vote", status := "error",
                        error := some error.message } }
          calls := calls, store := s2 }
      | none =>
        match firstRow reply.data with
        | .error e => { response := internalError e, calls := calls, store := s2 }
        | .ok row =>
          { response :=
              { code := 200
                body := { message := recordedMessage voteType, status := "success",
                          data := some { message := row, voteType := some voteType,
                                         timestamp := some now } } }
            calls := calls, store := s2 }
    | _, _ =>
      { response := messageNotFound, calls := [StoreCall.selectSingle messageId], store := s1 }

/-! ## `GET /api/messages` (`index.js`, lines 200-237) -/

/-- The handler of `GET /api/messages`; reading `data.length` of a `null` data throws. -/
def getMessages {σ : Type} (supabase : StoreClient σ) (now : Nat) (s : σ) : Outcome σ :=
  let (reply, s1) := supabase.selectOrdered s
  match reply.error with
  | some error =>
    { response :=
        { code := 500
          body := { message := "Failed to fetch messages", status := "error",
                    error := some error.message } }
      calls := [StoreCall.selectOrdered], store := s1 }
  | none =>
    match reply.data with
    | none =>
      { response := internalError (.typeError "Cannot read properties of null (reading length)")
        calls := [StoreCall.selectOrdered], store := s1 }
    | some data =>
      { response :=
          { code := 200
            body := { message := "Messages retrieved successfully", status := "success",
                      data := some { messages := some data, count := some data.length,
                                     timestamp := some now } } }
        calls := [StoreCall.selectOrdered], store := s1 }

/-! ## Client-side validation (`FeedbackForm.jsx`, lines 4-50) -/

/-- The options of the rating `<select>` (lines 197-201). -/
inductive RatingOption where
  | five
  | four
  | three
  | two
  | one
  deriving DecidableEq

/-- The string `e.target.value` a change of the select delivers: the `value` attribute of the
chosen option. -/
def RatingOption.value : RatingOption → JSString
  | .five => codeUnits "5"
  | .four => codeUnits "4"
  | .three => codeUnits "3"
  | .two => codeUnits "2"
  | .one => codeUnits "1"

/-- ECMAScript `ToNumber` on the value string of an option: a single decimal digit. -/
def RatingOption.toNumber : RatingOption → JSNumber
  | .five => .fin 5
  | .four => .fin 4
  | .three => .fin 3
  | .two => .fin 2
  | .one => .fin 1

/-- The rating held by the form state: a number (the state starts at the number 5), or the
value string of the option last chosen in the select. -/
inductive FormRating where
  | num (n : JSNumber)
  | option (o : RatingOption)
  deriving DecidableEq

/-- ECMAScript `ToNumber` on the rating of the form state. -/
def FormRating.toNumber : FormRating → JSNumber
  | .num n => n
  | .option o => o.toNumber

/-- The draft state `formData` of the form: `name` and `message` are the strings typed into
the inputs. -/
structure FormData where
  name : JSString
  message : JSString
  rating : FormRating
  deriving DecidableEq

/-- The initial value of `formData` (lines 5-9); a successful submit sets the state back to
it (lines 75-79). -/
def initialFormData : FormData :=
  { name := [], message := [], rating := .num (.fin 5) }

/-- A change event of one of the three controls of the form, with the value it delivers:
the text of an input, or the option chosen in the select. -/
inductive InputChange where
  | name (value : JSString)
  | message (value : JSString)
  | rating (chosen : RatingOption)
  deriving DecidableEq

/-- The state update of `handleInputChange` (lines 14-19): the property named by the control
is replaced by the delivered value, a string. -/
def handleInputChange (e : InputChange) (prev : FormData) : FormData :=
  match e with
  | .name value => { prev with name := value }
  | .message value => { prev with message := value }
  | .rating chosen => { prev with rating := .option chosen }

/-- The draft the form holds after a sequence of change events, starting from the initial
state. These are all the values `formData` takes: the state is only set by
`handleInputChange` and by the reset to the initial value. -/
def formState (changes : List InputChange) : FormData :=
  changes.foldl (fun prev e => handleInputChange e prev) initialFormData

/-- The object `newErrors` returned by `validateForm`; a key that was not set is `none`. -/
structure FormErrors where
  name : Option String := none
  message : Option String := none
  rating : Option String := none
  deriving DecidableEq

/-- The function `validateForm` of the feedback form. An empty string is falsy, so
`!formData.name.trim()` holds exactly when the trimmed name is empty; the length test is the
`else` branch of the blank test. The rating test has no truthiness guard. -/
def validateForm (formData : FormData) : FormErrors :=
  { name :=
      if (trim formData.name).isEmpty then some "Name is required"
      else if formData.name.length > 100 then some "Name must be less than 100 characters"
      else none
    message :=
      if (trim formData.message).isEmpty then some "Message is required"
      else if formData.message.length > 1000 then
        some "Message must be less than 1000 characters"
      else none
    rating :=
      if formData.rating.toNumber.lt (.fin 1) || JSNumber.lt (.fin 5) formData.rating.toNumber
      then some "Rating must be between 1 and 5"
      else none }

/-- The call `Object.keys(validationErrors)` of `handleSubmit`: the keys that were set. -/
def FormErrors.keys (e : FormErrors) : List String :=
  (if e.name.isSome then ["name"] else []) ++
  (if e.message.isSome then ["message"] else []) ++
  (if e.rating.isSome then ["rating"] else [])

/-! ## Optimistic vote update (`FeedbackList.jsx`, lines 32-42) -/

/-- The operator `===` on two values. Numbers compare by value with `NaN` different from
itself; strings compare by code units. Arrays and objects compare by reference, which the
model does not track: two `obj` operands are taken to be different references (the ids the
store returns are numbers or strings). -/
def strictEquals : JSValue → JSValue → Bool
  | .undefined, .undefined => true
  | .null, .null => true
  | .bool a, .bool b => decide (a = b)
  | .num a, .num b => decide (a ≠ .nan ∧ a = b)
  | .str a, .str b => decide (a = b)
  | _, _ => false

/-- The state updater passed to `setMessages` by `handleVote`: every message whose id is
`messageId` is replaced by a copy with one counter incremented, the others are kept. -/
def handleVoteUpdate (messageId voteType : JSValue) (prevMessages : List Row) : List Row :=
  prevMessages.map fun msg =>
    if strictEquals msg.id messageId then
      if voteType = .str upvote then { msg with upvotes := msg.upvotes + 1 }
      else { msg with downvotes := msg.downvotes + 1 }
    else msg

/-! ## Substitute stores and sample inputs -/

/-- Rows created for the inserted records, numbered from `next`; a `NaN` rating is stored
as 0 and the creation time is left empty. -/
def assignRows (next : Nat) : List NewMessage → List Row
  | [] => []
  | m :: rest =>
    { id := .num (.fin next), name := m.name, message := m.message, rating := m.rating.getD 0,
      upvotes := m.upvotes, downvotes := m.downvotes, created_at := [] } ::
      assignRows (next + 1) rest

/-- One row after an update: the counters named in `values` are overwritten. -/
def applyUpdate (values : UpdateData) (row : Row) : Row :=
  values.foldl
    (fun r kv =>
      if kv.1 = "upvotes" then { r with upvotes := kv.2 }
      else if kv.1 = "downvotes" then { r with downvotes := kv.2 }
      else r)
    row

/-- An in-memory table standing in for the managed store: rows are kept oldest first, and
`single()` reports an error unless exactly one row matches. -/
def memoryStore : StoreClient (List Row) where
  insertSelect rows s :=
    let created := assignRows (s.length + 1) rows
    ({ data := some created, error := none }, s ++ created)
  selectSingle id s :=
    match s.filter (fun r => decide (r.id = id)) with
    | [r] => ({ data := some r, error := none }, s)
    | _ => ({ data := none, error := some { message := "no single row" } }, s)
  updateSelect values id s :=
    let s1 := s.map (fun r => if r.id = id then applyUpdate values r else r)
    ({ data := some (s1.filter (fun r => decide (r.id = id))), error := none }, s1)
  selectOrdered s := ({ data := some s.reverse, error := none }, s)

/-- A store none of whose queries succeeds. -/
def failingStore : StoreClient Unit where
  insertSelect _ s := ({ data := none, error := some { message := "connection refused" } }, s)
  selectSingle _ s := ({ data := none, error := some { message := "connection refused" } }, s)
  updateSelect _ _ s := ({ data := none, error := some { message := "connection refused" } }, s)
  selectOrdered s := ({ data := none, error := some { message := "connection refused" } }, s)

/-- The name `"Alice"`. -/
def alice : JSString := codeUnits "Alice"

/-- The message `"Great job!"`. -/
def greatJob : JSString := codeUnits "Great job!"

/-- A stored row with id 1, three upvotes and one downvote. -/
def sampleRow : Row :=
  { id := .num (.fin 1), name := alice, message := greatJob, rating := 4, upvotes := 3,
    downvotes := 1, created_at := [] }

/-- One hundred letters `a` followed by a space: 101 code units, 100 after trimming. -/
def paddedName : JSString := List.replicate 100 97 ++ [32]

/-- The name `" Alice "`, with a leading and a trailing space. -/
def spacedAlice : JSString := 32 :: alice ++ [32]

/-- The row the in-memory table creates for Alice's message with rating 4. -/
def aliceRow : Row :=
  { id := .num (.fin 1), name := alice, message := greatJob, rating := 4, upvotes := 0,
    downvotes := 0, created_at := [] }

/-- The in-memory table with updates refused: inserts and reads work as in `memoryStore`. -/
def readOnlyStore : StoreClient (List Row) :=
  { memoryStore with
    updateSelect := fun _ _ s =>
      ({ data := none, error := some { message := "permission denied" } }, s) }

/-- The vote type `"sideways"`. -/
def sideways : JSString := codeUnits "sideways"

/-- The row `sampleRow` after one more upvote. -/
def upvotedRow : Row := { sampleRow with upvotes := 4 }

/-- A valid upvote of the message with id 1. -/
def upvoteOne : VoteData := { messageId := .num (.fin 1), voteType := .str upvote }

/-- A valid upvote of the message with id 2. -/
def upvoteTwo : VoteData := { messageId := .num (.fin 2), voteType := .str upvote }

/-- A second stored row, with id 2. -/
def otherRow : Row :=
  { id := .num (.fin 2), name := greatJob, message := alice, rating := 2, upvotes := 0,
    downvotes := 5, created_at := [] }

/-- The list view holding the two sample rows. -/
def sampleMessages : List Row := [sampleRow, otherRow]

/-- The change events of typing the name "Alice" and the message "Great job!", the select
left untouched. -/
def aliceTyping : List InputChange := [.name alice, .message greatJob]

/-! ## Vocabulary of the specification -/

/-- The response-time timestamp of an envelope: the `timestamp` of its `data` object, if
any. -/
def Response.timestamp (r : Response) : Option Nat :=
  match r.body.data with
  | some data => data.timestamp
  | none => none


/-- A property that is missing from a record: absent (`undefined`) or `null`. -/
def JSValue.isMissing : JSValue → Bool
  | .undefined => true
  | .null => true
  | _ => false

/-- A property that is a string or is missing, as the data model has `name` and `message`. -/
def JSValue.isStringOrMissing : JSValue → Bool
  | .undefined => true
  | .null => true
  | .str _ => true
  | _ => false

/-- A property that is missing, or is a string that is blank after trimming. -/
def JSValue.isMissingOrBlank : JSValue → Bool
  | .undefined => true
  | .null => true
  | .str s => decide (trim s = [])
  | _ => false

/-- A property that is falsy or a string: the values on which the required-field test of
the validator runs without throwing. -/
def JSValue.isFalsyOrString : JSValue → Bool
  | .str _ => true
  | v => !v.truthy

/-- A property that is falsy (absent, `null`, `false`, 0, `NaN` or the empty string), or is
a string that is blank after trimming. -/
def JSValue.isFalsyOrBlank : JSValue → Bool
  | .str s => decide (trim s = [])
  | v => !v.truthy

/-! ## Message validation: lemmas -/

theorem missingOrBlank_of_stringOrMissing (v : JSValue) (h : v.isStringOrMissing = true) :
    v.missingOrBlank = .ok v.isMissingOrBlank := by
  cases v with
  | str s =>
    cases s with
    | nil => simp [JSValue.missingOrBlank, JSValue.truthy, JSValue.isMissingOrBlank, trim]
    | cons c cs =>
      simp [JSValue.missingOrBlank, JSValue.truthy, JSValue.isMissingOrBlank,
        JSValue.callTrim]
  | _ => first | rfl | simp [JSValue.isStringOrMissing] at h

theorem missingOrBlank_of_falsyOrString (v : JSValue) (h : v.isFalsyOrString = true) :
    v.missingOrBlank = .ok v.isFalsyOrBlank := by
  cases v with
  | str s =>
    cases s with
    | nil => simp [JSValue.missingOrBlank, JSValue.truthy, JSValue.isFalsyOrBlank, trim]
    | cons c cs =>
      simp [JSValue.missingOrBlank, JSValue.truthy, JSValue.isFalsyOrBlank, JSValue.callTrim]
  | _ =>
    simp only [JSValue.isFalsyOrString, Bool.not_eq_true'] at h
    simp [JSValue.missingOrBlank, JSValue.isFalsyOrBlank, h]

/-- A missing or blank property is in particular falsy or blank. -/
theorem isFalsyOrBlank_of_isMissingOrBlank (v : JSValue) (h : v.isMissingOrBlank = true) :
    v.isFalsyOrBlank = true := by
  cases v <;> simp [JSValue.isMissingOrBlank] at h <;>
    simp [JSValue.isFalsyOrBlank, JSValue.truthy, h]

theorem validateMessageInput_of_checks (d : MessageData) (b1 b2 : Bool)
    (h1 : d.name.missingOrBlank = .ok b1) (h2 : d.message.missingOrBlank = .ok b2) :
    validateMessageInput d = .ok
      ((if b1 then ["Name is required"] else []) ++
        (if b2 then ["Message is required"] else []) ++
        (if d.rating.outOfRange then ["Rating must be between 1 and 5"] else []) ++
        (if d.name.longerThan 100 then ["Name must be less than 100 characters"] else []) ++
        (if d.message.longerThan 1000 then
          ["Message must be less than 1000 characters"] else [])) := by
  simp [validateMessageInput, h1, h2]

theorem mem_errors_iff (b1 b2 b3 b4 b5 : Bool) :
    let errs := (if b1 then ["Name is required"] else []) ++
      (if b2 then ["Message is required"] else []) ++
      (if b3 then ["Rating must be between 1 and 5"] else []) ++
      (if b4 then ["Name must be less than 100 characters"] else []) ++
      (if b5 then ["Message must be less than 1000 characters"] else [])
    ("Name is required" ∈ errs ↔ b1 = true) ∧
    ("Message is required" ∈ errs ↔ b2 = true) ∧
    ("Rating must be between 1 and 5" ∈ errs ↔ b3 = true) ∧
    ("Name must be less than 100 characters" ∈ errs ↔ b4 = true) ∧
    ("Message must be less than 1000 characters" ∈ errs ↔ b5 = true) ∧
    (errs = [] ↔ b1 = false ∧ b2 = false ∧ b3 = false ∧ b4 = false ∧ b5 = false) := by
  cases b1 <;> cases b2 <;> cases b3 <;> cases b4 <;> cases b5 <;> decide

/-- A truthy name that is not a string makes the validator throw, so the length test on
line 34 is reached with a falsy value or a string only. -/
theorem validateMessageInput_obj_name (message : JSValue) (rating : RatingValue) :
    validateMessageInput { name := .obj, message := message, rating := rating } =
      .error (.typeError "trim is not a function") := by
  simp [validateMessageInput, JSValue.missingOrBlank, JSValue.truthy, JSValue.callTrim]

theorem isString_of_missingOrBlank_false (v : JSValue) (h : v.missingOrBlank = .ok false) :
    ∃ s, v = .str s := by
  cases v with
  | str s => exact ⟨s, rfl⟩
  | bool b => cases b <;> simp [JSValue.missingOrBlank, JSValue.truthy, JSValue.callTrim] at h
  | num n =>
    cases hn : n.truthy <;>
      simp [JSValue.missingOrBlank, JSValue.truthy, JSValue.callTrim, hn] at h
  | _ => simp [JSValue.missingOrBlank, JSValue.truthy, JSValue.callTrim] at h

/-- A record that passes validation has a string name and a string message. -/
theorem strings_of_validateMessageInput_nil (d : MessageData)
    (h : validateMessageInput d = .ok []) :
    ∃ n m, d.name = .str n ∧ d.message = .str m := by
  cases h1 : d.name.missingOrBlank with
  | error e => simp [validateMessageInput, h1] at h
  | ok b1 =>
    cases h2 : d.message.missingOrBlank with
    | error e => simp [validateMessageInput, h1, h2] at h
    | ok b2 =>
      rw [validateMessageInput_of_checks d b1 b2 h1 h2] at h
      have hnil := (mem_errors_iff b1 b2 d.rating.outOfRange (d.name.longerThan 100)
        (d.message.longerThan 1000)).2.2.2.2.2.1 (Except.ok.inj h)
      obtain ⟨n, hn⟩ := isString_of_missingOrBlank_false d.name (hnil.1 ▸ h1)
      obtain ⟨m, hm⟩ := isString_of_missingOrBlank_false d.message (hnil.2.1 ▸ h2)
      exact ⟨n, m, hn, hm⟩

/-- The range test of line 29 on a finite number: zero is skipped as falsy. -/
theorem outOfRange_fin (q : ℚ) :
    (RatingValue.num (.fin q)).outOfRange = true ↔ q ≠ 0 ∧ (q < 1 ∨ 5 < q) := by
  simp [RatingValue.outOfRange, RatingValue.truthy, JSNumber.truthy, RatingValue.toNumber,
    JSNumber.lt]

/-- The default of line 48 does not change the outcome of the range test. -/
theorem outOfRange_defaultRating (r : RatingValue) :
    (defaultRating r).outOfRange = r.outOfRange := by
  cases r <;> simp [defaultRating, RatingValue.outOfRange, RatingValue.truthy,
    JSNumber.truthy, RatingValue.toNumber, JSNumber.lt]

theorem validateMessageInput_defaultRating (name message : JSValue) (r : RatingValue) :
    validateMessageInput { name := name, message := message, rating := defaultRating r } =
      validateMessageInput { name := name, message := message, rating := r } := by
  simp [validateMessageInput, outOfRange_defaultRating]

theorem longerThan_str (t : JSString) (k : Nat) :
    (JSValue.str t).longerThan k = true ↔ t.length > k := by
  cases t with
  | nil => simp [JSValue.longerThan]
  | cons c cs => simp [JSValue.longerThan]

theorem postMessages_of_errors {σ : Type} (supabase : StoreClient σ) (now : Nat)
    (b : CreateBody) (s : σ) (errs : List String)
    (hv : validateMessageInput
      { name := b.name, message := b.message, rating := defaultRating b.rating } = .ok errs)
    (hne : errs ≠ []) :
    postMessages supabase now b s =
      { response := validationFailed errs, calls := [], store := s } := by
  have hlen : errs.length > 0 := List.length_pos.mpr hne
  simp [postMessages, hv, hlen]

/-! ## Claims on message validation and `POST /api/messages` -/

/-- C1 (failing input). The rating 0 is present and lies outside [1,5], yet
`validateMessageInput` returns the empty list for it: the range test of line 29 is guarded by
the truthiness of the rating and 0 is falsy. `POST /api/messages` then answers 201 and
submits a record with rating 0 to the store. -/
theorem validateMessageInput_rating_zero :
    validateMessageInput { name := .str alice, message := .str greatJob,
                           rating := .num (.fin 0) } = .ok [] ∧
    (postMessages memoryStore 0
      { name := .str alice, message := .str greatJob, rating := .num (.fin 0) } []).response.code
        = 201 ∧
    (postMessages memoryStore 0
      { name := .str alice, message := .str greatJob, rating := .num (.fin 0) } []).calls
        = [.insert [{ name := alice, message := greatJob, rating := some 0, upvotes := 0,
                      downvotes := 0 }]] := by
  decide

/-- C2 (counterexample). The name 0 is present and is not a blank string, yet the validator
reports "Name is required" for it; and for the name 123 with an empty message the validator
throws instead of returning a list, so `POST /api/messages` answers 500 without any
validation errors. -/
theorem validateMessageInput_required_counterexamples :
    (JSValue.num (.fin 0)).isMissingOrBlank = false ∧
    validateMessageInput
      { name := .num (.fin 0), message := .str greatJob, rating := .undefined }
        = .ok ["Name is required"] ∧
    (JSValue.str []).isMissingOrBlank = true ∧
    validateMessageInput { name := .num (.fin 123), message := .str [], rating := .undefined }
      = .error (.typeError "trim is not a function") ∧
    (postMessages memoryStore 0
      { name := .num (.fin 123), message := .str [], rating := .undefined } []).response
        = { code := 500
            body := { message := "Internal server error", status := "error",
                      error := some "trim is not a function" } } := by
  decide

/-- C2 (amended). For every candidate record whose name and message are each falsy or a
string, `validateMessageInput` returns a list that contains "Name is required" exactly when
the name is falsy or blank after trimming (so in particular when it is missing or blank),
and "Message is required" exactly when the message is falsy or blank after trimming; when
both are, the list holds both errors and `POST /api/messages` answers 400 carrying that
list, without any store query. -/
theorem validateMessageInput_required_fields {σ : Type} (supabase : StoreClient σ) (now : Nat)
    (s : σ) (d : MessageData) (hn : d.name.isFalsyOrString = true)
    (hm : d.message.isFalsyOrString = true) :
    ∃ errs, validateMessageInput d = .ok errs ∧
      ("Name is required" ∈ errs ↔ d.name.isFalsyOrBlank = true) ∧
      ("Message is required" ∈ errs ↔ d.message.isFalsyOrBlank = true) ∧
      (d.name.isMissingOrBlank = true → "Name is required" ∈ errs) ∧
      (d.message.isMissingOrBlank = true → "Message is required" ∈ errs) ∧
      (d.name.isFalsyOrBlank = true → d.message.isFalsyOrBlank = true →
        "Name is required" ∈ errs ∧ "Message is required" ∈ errs ∧
        postMessages supabase now
            { name := d.name, message := d.message, rating := d.rating } s =
          { response :=
              { code := 400
                body := { message := "Validation failed", status := "error",
                          errors := some errs } }
            calls := [], store := s }) := by
  have h1 := missingOrBlank_of_falsyOrString d.name hn
  have h2 := missingOrBlank_of_falsyOrString d.message hm
  have hv := validateMessageInput_of_checks d _ _ h1 h2
  have hmem := mem_errors_iff d.name.isFalsyOrBlank d.message.isFalsyOrBlank
    d.rating.outOfRange (d.name.longerThan 100) (d.message.longerThan 1000)
  refine ⟨_, hv, hmem.1, hmem.2.1,
    fun h => hmem.1.mpr (isFalsyOrBlank_of_isMissingOrBlank _ h),
    fun h => hmem.2.1.mpr (isFalsyOrBlank_of_isMissingOrBlank _ h), ?_⟩
  intro hb1 hb2
  refine ⟨hmem.1.mpr hb1, hmem.2.1.mpr hb2, ?_⟩
  have hne : ((if d.name.isFalsyOrBlank then ["Name is required"] else []) ++
      (if d.message.isFalsyOrBlank then ["Message is required"] else []) ++
      (if d.rating.outOfRange then ["Rating must be between 1 and 5"] else []) ++
      (if d.name.longerThan 100 then ["Name must be less than 100 characters"] else []) ++
      (if d.message.longerThan 1000 then
        ["Message must be less than 1000 characters"] else [])) ≠ [] := by
    intro hnil
    have := hmem.2.2.2.2.2.mp hnil
    rw [hb1] at this
    exact absurd this.1 (by decide)
  have hv2 := (validateMessageInput_defaultRating d.name d.message d.rating).trans hv
  exact postMessages_of_errors supabase now
    { name := d.name, message := d.message, rating := d.rating } s _ hv2 hne

/-- Witness of C2 (amended): the name 0 and a message of two spaces. -/
theorem validateMessageInput_required_fields_witness :
    (JSValue.num (.fin 0)).isFalsyOrString = true ∧
    (JSValue.str [32, 32]).isFalsyOrString = true ∧
    ∃ errs, validateMessageInput
        { name := .num (.fin 0), message := .str [32, 32], rating := .undefined } = .ok errs ∧
      ("Name is required" ∈ errs ↔ (JSValue.num (.fin 0)).isFalsyOrBlank = true) ∧
      ("Message is required" ∈ errs ↔ (JSValue.str [32, 32]).isFalsyOrBlank = true) ∧
      ((JSValue.num (.fin 0)).isMissingOrBlank = true → "Name is required" ∈ errs) ∧
      ((JSValue.str [32, 32]).isMissingOrBlank = true → "Message is required" ∈ errs) ∧
      ((JSValue.num (.fin 0)).isFalsyOrBlank = true →
        (JSValue.str [32, 32]).isFalsyOrBlank = true →
        "Name is required" ∈ errs ∧ "Message is required" ∈ errs ∧
        postMessages memoryStore 0
            { name := .num (.fin 0), message := .str [32, 32], rating := .undefined } [] =
          { response :=
              { code := 400
                body := { message := "Validation failed", status := "error",
                          errors := some errs } }
            calls := [], store := [] }) :=
  ⟨by decide, by decide,
    validateMessageInput_required_fields memoryStore 0 []
      { name := .num (.fin 0), message := .str [32, 32], rating := .undefined }
      (by decide) (by decide)⟩

/-- C3. For every candidate record whose name and message are present (strings),
`validateMessageInput` returns a list that holds the name-length error if and only if the
name has more than 100 code units, and the message-length error if and only if the message
has more than 1000; a name of exactly 100 and a message of exactly 1000 give no length
error. -/
theorem validateMessageInput_length_limits (n m : JSString) (r : RatingValue) :
    ∃ errs, validateMessageInput { name := .str n, message := .str m, rating := r } = .ok errs ∧
      ("Name must be less than 100 characters" ∈ errs ↔ n.length > 100) ∧
      ("Message must be less than 1000 characters" ∈ errs ↔ m.length > 1000) ∧
      (n.length = 100 → "Name must be less than 100 characters" ∉ errs) ∧
      (m.length = 1000 → "Message must be less than 1000 characters" ∉ errs) := by
  have h1 := missingOrBlank_of_stringOrMissing (.str n) rfl
  have h2 := missingOrBlank_of_stringOrMissing (.str m) rfl
  have hv := validateMessageInput_of_checks
    { name := .str n, message := .str m, rating := r } _ _ h1 h2
  have hmem := mem_errors_iff (JSValue.str n).isMissingOrBlank (JSValue.str m).isMissingOrBlank
    r.outOfRange ((JSValue.str n).longerThan 100) ((JSValue.str m).longerThan 1000)
  have hn := hmem.2.2.2.1.trans (longerThan_str n 100)
  have hm := hmem.2.2.2.2.1.trans (longerThan_str m 1000)
  refine ⟨_, hv, hn, hm, ?_, ?_⟩
  · intro h100 hin
    have := hn.mp hin
    omega
  · intro h1000 hin
    have := hm.mp hin
    omega

theorem validateMessageInput_strings_nil (n m : JSString) (r : RatingValue)
    (hn1 : trim n ≠ []) (hn2 : n.length ≤ 100) (hm1 : trim m ≠ []) (hm2 : m.length ≤ 1000)
    (hr : r.outOfRange = false) :
    validateMessageInput { name := .str n, message := .str m, rating := r } = .ok [] := by
  have h1 := missingOrBlank_of_stringOrMissing (.str n) rfl
  have h2 := missingOrBlank_of_stringOrMissing (.str m) rfl
  rw [validateMessageInput_of_checks { name := .str n, message := .str m, rating := r } _ _ h1 h2]
  have hl1 : (JSValue.str n).longerThan 100 = false := by
    rw [← Bool.not_eq_true, longerThan_str]; omega
  have hl2 : (JSValue.str m).longerThan 1000 = false := by
    rw [← Bool.not_eq_true, longerThan_str]; omega
  simp [JSValue.isMissingOrBlank, hn1, hm1, hr, hl1, hl2]

theorem parseInt_intCast (k : Int) : parseInt (.num (.fin (k : ℚ))) = some k := by
  simp [parseInt]

/-- The handler past validation: what it answers is determined by the reply to the single
insert it issues. -/
theorem postMessages_of_valid {σ : Type} (supabase : StoreClient σ) (now : Nat) (s s1 : σ)
    (n m : JSString) (r : RatingValue) (reply : Reply (List Row))
    (hv : validateMessageInput
      { name := .str n, message := .str m, rating := defaultRating r } = .ok [])
    (hrep : supabase.insertSelect [{ name := trim n, message := trim m,
                                     rating := parseInt (defaultRating r), upvotes := 0,
                                     downvotes := 0 }] s = (reply, s1)) :
    postMessages supabase now { name := .str n, message := .str m, rating := r } s =
      { response :=
          match reply.error with
          | some error =>
            { code := 500
              body := { message := "Failed to create message", status := "error",
                        error := some error.message } }
          | none =>
            match reply.data with
            | none => internalError (.typeError "Cannot read properties of null (reading 0)")
            | some rows =>
              { code := 201
                body := { message := "Message created successfully", status := "success",
                          data := some { message := rows.head?, timestamp := some now } } }
        calls := [.insert [{ name := trim n, message := trim m,
                             rating := parseInt (defaultRating r), upvotes := 0,
                             downvotes := 0 }]]
        store := s1 } := by
  unfold postMessages
  simp only [hv, buildNewMessage, JSValue.callTrim, hrep]
  obtain ⟨data, error⟩ := reply
  cases error <;> cases data <;> simp [firstRow]

/-- C4 (counterexample). A name of 100 letters followed by one space has 100 characters once
trimmed, the message and the absent rating are valid, and yet `POST /api/messages` answers
400 with the name-length error and queries no store: the length is tested before
trimming. -/
theorem postMessages_padded_name_rejected :
    (trim paddedName).length = 100 ∧ (trim greatJob).length = 10 ∧
    (postMessages memoryStore 0
      { name := .str paddedName, message := .str greatJob, rating := .undefined } []).response
        = { code := 400
            body := { message := "Validation failed", status := "error",
                      errors := some ["Name must be less than 100 characters"] } } ∧
    (postMessages memoryStore 0
      { name := .str paddedName, message := .str greatJob, rating := .undefined } []).calls
        = [] := by
  decide

/-- C4 (amended). `POST /api/messages` validates the name and message as submitted and trims
them only when it builds the record to insert: for every request whose submitted name is not
blank after trimming and has at most 100 characters untrimmed, whose submitted message is
not blank after trimming and has at most 1000 characters untrimmed, and whose rating is
absent or a number in [1,5], validation returns no error, the answer is not a 400, and the
single record submitted to the store carries the trimmed name and message. -/
theorem postMessages_accepts_valid {σ : Type} (supabase : StoreClient σ) (now : Nat) (s : σ)
    (n m : JSString) (r : RatingValue)
    (hn1 : trim n ≠ []) (hn2 : n.length ≤ 100) (hm1 : trim m ≠ []) (hm2 : m.length ≤ 1000)
    (hr : r = .undefined ∨ ∃ q : ℚ, r = .num (.fin q) ∧ 1 ≤ q ∧ q ≤ 5) :
    validateMessageInput
      { name := .str n, message := .str m, rating := defaultRating r } = .ok [] ∧
    (postMessages supabase now { name := .str n, message := .str m, rating := r } s).response.code
      ≠ 400 ∧
    ∃ rating, (postMessages supabase now
        { name := .str n, message := .str m, rating := r } s).calls
      = [.insert [{ name := trim n, message := trim m, rating := rating, upvotes := 0,
                    downvotes := 0 }]] := by
  have hout : (defaultRating r).outOfRange = false := by
    rw [outOfRange_defaultRating, ← Bool.not_eq_true]
    rcases hr with h | ⟨q, h, h1, h5⟩
    · subst h; decide
    · subst h
      rw [outOfRange_fin]
      rintro ⟨-, h | h⟩
      · exact absurd h1 (not_le.mpr h)
      · exact absurd h5 (not_le.mpr h)
  have hv := validateMessageInput_strings_nil n m (defaultRating r) hn1 hn2 hm1 hm2 hout
  have hp := postMessages_of_valid supabase now s _ n m r _ hv rfl
  refine ⟨hv, ?_, parseInt (defaultRating r), ?_⟩
  · rw [hp]
    generalize (supabase.insertSelect _ s).1 = reply
    obtain ⟨data, error⟩ := reply
    cases error <;> cases data <;> simp [internalError]
  · rw [hp]

/-- Witness of C4 (amended): the name `" Alice "` with no rating. -/
theorem postMessages_accepts_valid_witness :
    trim spacedAlice ≠ [] ∧ spacedAlice.length ≤ 100 ∧ trim greatJob ≠ [] ∧
    greatJob.length ≤ 1000 ∧
    validateMessageInput
      { name := .str spacedAlice, message := .str greatJob,
        rating := defaultRating .undefined } = .ok [] ∧
    (postMessages memoryStore 0
      { name := .str spacedAlice, message := .str greatJob, rating := .undefined }
      []).response.code ≠ 400 ∧
    ∃ rating, (postMessages memoryStore 0
        { name := .str spacedAlice, message := .str greatJob, rating := .undefined } []).calls
      = [.insert [{ name := trim spacedAlice, message := trim greatJob, rating := rating,
                    upvotes := 0, downvotes := 0 }]] :=
  ⟨by decide, by decide, by decide, by decide,
    postMessages_accepts_valid memoryStore 0 [] spacedAlice greatJob .undefined
      (by decide) (by decide) (by decide) (by decide) (Or.inl rfl)⟩

/-- C5. For every request that passes validation with an integer rating `k` in [1,5], or
with no rating (then `k = 5`), and a store whose insert succeeds returning `rows`,
`POST /api/messages` issues exactly one store query, the insert of the single record made of
the trimmed name, the trimmed message, the rating `k`, `upvotes = 0` and `downvotes = 0`,
and answers 201 with status "success" and `data.message` equal to the first row the store
returned. -/
theorem postMessages_created {σ : Type} (supabase : StoreClient σ) (now : Nat) (s s1 : σ)
    (n m : JSString) (r : RatingValue) (k : Int) (rows : List Row)
    (hv : validateMessageInput
      { name := .str n, message := .str m, rating := defaultRating r } = .ok [])
    (hr : (r = .undefined ∧ k = 5) ∨ (r = .num (.fin (k : ℚ)) ∧ 1 ≤ k ∧ k ≤ 5))
    (hins : supabase.insertSelect [{ name := trim n, message := trim m, rating := some k,
                                     upvotes := 0, downvotes := 0 }] s
      = ({ data := some rows, error := none }, s1)) :
    postMessages supabase now { name := .str n, message := .str m, rating := r } s =
      { response :=
          { code := 201
            body := { message := "Message created successfully", status := "success",
                      data := some { message := rows.head?, timestamp := some now } } }
        calls := [.insert [{ name := trim n, message := trim m, rating := some k, upvotes := 0,
                             downvotes := 0 }]]
        store := s1 } := by
  have hk : parseInt (defaultRating r) = some k := by
    rcases hr with ⟨h, h5⟩ | ⟨h, -, -⟩
    · subst h; subst h5; decide
    · subst h; exact parseInt_intCast k
  have hp := postMessages_of_valid supabase now s s1 n m r { data := some rows, error := none }
    hv (by rw [hk]; exact hins)
  rw [hp, hk]

/-- Witness of C5: Alice's message with rating 4 on the empty in-memory table. -/
theorem postMessages_created_witness :
    validateMessageInput
      { name := .str alice, message := .str greatJob,
        rating := defaultRating (.num (.fin ((4 : Int) : ℚ))) } = .ok [] ∧
    postMessages memoryStore 12
        { name := .str alice, message := .str greatJob,
          rating := .num (.fin ((4 : Int) : ℚ)) } [] =
      { response :=
          { code := 201
            body := { message := "Message created successfully", status := "success",
                      data := some { message := [aliceRow].head?, timestamp := some 12 } } }
        calls := [.insert [{ name := trim alice, message := trim greatJob, rating := some 4,
                             upvotes := 0, downvotes := 0 }]]
        store := [aliceRow] } :=
  ⟨by decide,
    postMessages_created memoryStore 12 [] [aliceRow] alice greatJob
      (.num (.fin ((4 : Int) : ℚ))) 4 [aliceRow] (by decide)
      (Or.inr ⟨rfl, by decide, by decide⟩) (by decide)⟩

/-! ## Vote validation and `POST /api/vote`: lemmas -/

theorem isVoteType_iff (v : JSValue) :
    isVoteType v = true ↔ v = .str upvote ∨ v = .str downvote := by
  simp [isVoteType]

theorem truthy_of_isVoteType (v : JSValue) (h : isVoteType v = true) : v.truthy = true := by
  rcases (isVoteType_iff v).mp h with h | h <;> subst h <;> decide

theorem validateVoteInput_nil_iff (d : VoteData) :
    validateVoteInput d = [] ↔ d.messageId.truthy = true ∧ isVoteType d.voteType = true := by
  constructor
  · intro h
    cases h1 : d.messageId.truthy <;> cases h2 : d.voteType.truthy <;>
      cases h3 : isVoteType d.voteType <;> simp [validateVoteInput, h1, h2, h3] at h ⊢
  · rintro ⟨h1, h3⟩
    simp [validateVoteInput, h1, h3, truthy_of_isVoteType _ h3]

theorem postVote_of_errors {σ : Type} (supabase : StoreClient σ) (now : Nat) (d : VoteData)
    (s : σ) (hne : validateVoteInput d ≠ []) :
    postVote supabase now d s =
      { response := validationFailed (validateVoteInput d), calls := [], store := s } := by
  have hlen : (validateVoteInput d).length > 0 := List.length_pos.mpr hne
  simp [postVote, hlen]

/-- The handler past validation, when the fetch reports an error or returns no row. -/
theorem postVote_of_fetch_failed {σ : Type} (supabase : StoreClient σ) (now : Nat)
    (d : VoteData) (s s1 : σ) (fetched : Reply Row) (hvalid : validateVoteInput d = [])
    (hfetch : supabase.selectSingle d.messageId s = (fetched, s1))
    (hfail : fetched.error ≠ none ∨ fetched.data = none) :
    postVote supabase now d s =
      { response := messageNotFound, calls := [.selectSingle d.messageId], store := s1 } := by
  unfold postVote
  simp only [hvalid, hfetch]
  obtain ⟨data, error⟩ := fetched
  cases error <;> cases data <;> simp at hfail ⊢

/-- The handler past validation, when the fetch returns the current row: what it answers is
determined by the reply to the update it issues. -/
theorem postVote_of_fetched {σ : Type} (supabase : StoreClient σ) (now : Nat)
    (d : VoteData) (s s1 s2 : σ) (cur : Row) (reply : Reply (List Row))
    (hvalid : validateVoteInput d = [])
    (hfetch : supabase.selectSingle d.messageId s = ({ data := some cur, error := none }, s1))
    (hupd : supabase.updateSelect (buildUpdateData d.voteType cur) d.messageId s1
      = (reply, s2)) :
    postVote supabase now d s =
      { response :=
          match reply.error with
          | some error =>
            { code := 500
              body := { message := "Failed to update vote", status := "error",
                        error := some error.message } }
          | none =>
            match reply.data with
            | none => internalError (.typeError "Cannot read properties of null (reading 0)")
            | some rows =>
              { code := 200
                body := { message := recordedMessage d.voteType, status := "success",
                          data := some { message := rows.head?, voteType := some d.voteType,
                                         timestamp := some now } } }
        calls := [.selectSingle d.messageId,
                  .update (buildUpdateData d.voteType cur) d.messageId]
        store := s2 } := by
  unfold postVote
  simp only [hvalid, hfetch, hupd]
  obtain ⟨data, error⟩ := reply
  cases error <;> cases data <;> simp [firstRow]

/-- The falsy values: `undefined`, `null`, `false`, `NaN`, zero and the empty string. -/
theorem truthy_eq_false_iff (v : JSValue) :
    v.truthy = false ↔ v = .undefined ∨ v = .null ∨ v = .bool false ∨ v = .num .nan ∨
      v = .num (.fin 0) ∨ v = .str [] := by
  cases v with
  | num n => cases n <;> simp [JSValue.truthy, JSNumber.truthy]
  | str t => cases t <;> simp [JSValue.truthy]
  | bool b => cases b <;> simp [JSValue.truthy]
  | _ => simp [JSValue.truthy]

theorem truthy_of_isMissing (v : JSValue) (h : v.isMissing = true) : v.truthy = false := by
  cases v <;> simp [JSValue.isMissing] at h <;> rfl

/-! ## Claims on vote validation and `POST /api/vote` -/

/-- C6 (counterexample). The message id 0 is present and the vote type is "upvote", yet
`validateVoteInput` returns a non-empty list holding the message-id error: presence is
tested by truthiness and 0 is falsy. -/
theorem validateVoteInput_zero_id :
    (JSValue.num (.fin 0)).isMissing = false ∧
    validateVoteInput { messageId := .num (.fin 0), voteType := .str upvote }
      = ["Message ID is required"] := by
  decide

/-- C6 (amended). For every vote request, `validateVoteInput` returns the empty list if and
only if `messageId` is truthy and `voteType` is exactly "upvote" or "downvote"; it reports
"Message ID is required" exactly when `messageId` is falsy (absent, `null`, `false`, 0,
`NaN` or the empty string), in particular whenever it is missing; and it reports one of the
two vote-type errors exactly when `voteType` is neither "upvote" nor "downvote". -/
theorem validateVoteInput_characterised (d : VoteData) :
    (validateVoteInput d = [] ↔
      d.messageId.truthy = true ∧ (d.voteType = .str upvote ∨ d.voteType = .str downvote)) ∧
    ("Message ID is required" ∈ validateVoteInput d ↔ d.messageId.truthy = false) ∧
    (d.messageId.isMissing = true → "Message ID is required" ∈ validateVoteInput d) ∧
    (("Vote type is required" ∈ validateVoteInput d ∨
        "Vote type must be either \"upvote\" or \"downvote\"" ∈ validateVoteInput d) ↔
      ¬ (d.voteType = .str upvote ∨ d.voteType = .str downvote)) := by
  have hid : "Message ID is required" ∈ validateVoteInput d ↔ d.messageId.truthy = false := by
    cases h1 : d.messageId.truthy <;> cases h2 : d.voteType.truthy <;>
      cases h3 : isVoteType d.voteType <;> simp [validateVoteInput, h1, h2, h3]
  refine ⟨?_, hid, fun h => hid.mpr (truthy_of_isMissing _ h), ?_⟩
  · rw [validateVoteInput_nil_iff, isVoteType_iff]
  · rw [← isVoteType_iff]
    cases h3 : isVoteType d.voteType
    · cases h1 : d.messageId.truthy <;> cases h2 : d.voteType.truthy <;>
        simp [validateVoteInput, h1, h2, h3]
    · have h2 := truthy_of_isVoteType _ h3
      cases h1 : d.messageId.truthy <;> simp [validateVoteInput, h1, h2, h3]

/-- C8. For every vote request whose vote type is neither "upvote" nor "downvote", or whose
message id or vote type is missing, `POST /api/vote` answers 400 with status "error" and
the non-empty list returned by `validateVoteInput`, and issues no store query. -/
theorem postVote_invalid {σ : Type} (supabase : StoreClient σ) (now : Nat) (s : σ)
    (d : VoteData)
    (h : (d.voteType ≠ .str upvote ∧ d.voteType ≠ .str downvote) ∨
      d.messageId.isMissing = true ∨ d.voteType.isMissing = true) :
    validateVoteInput d ≠ [] ∧
    postVote supabase now d s =
      { response :=
          { code := 400
            body := { message := "Validation failed", status := "error",
                      errors := some (validateVoteInput d) } }
        calls := [], store := s } := by
  have hne : validateVoteInput d ≠ [] := by
    intro hnil
    obtain ⟨h1, h3⟩ := (validateVoteInput_nil_iff d).mp hnil
    rcases h with ⟨hu, hd⟩ | h | h
    · rcases (isVoteType_iff _).mp h3 with h | h
      · exact hu h
      · exact hd h
    · rw [truthy_of_isMissing _ h] at h1
      exact absurd h1 (by decide)
    · have := truthy_of_isVoteType _ h3
      rw [truthy_of_isMissing _ h] at this
      exact absurd this (by decide)
  exact ⟨hne, postVote_of_errors supabase now d s hne⟩

/-- Witness of C8: the vote type "sideways" on a stored message. -/
theorem postVote_invalid_witness :
    ((JSValue.str sideways ≠ .str upvote ∧ JSValue.str sideways ≠ .str downvote) ∨
      (JSValue.num (.fin 1)).isMissing = true ∨ (JSValue.str sideways).isMissing = true) ∧
    validateVoteInput { messageId := .num (.fin 1), voteType := .str sideways } ≠ [] ∧
    postVote memoryStore 0 { messageId := .num (.fin 1), voteType := .str sideways }
        [sampleRow] =
      { response :=
          { code := 400
            body := { message := "Validation failed", status := "error",
                      errors := some (validateVoteInput
                        { messageId := .num (.fin 1), voteType := .str sideways }) } }
        calls := [], store := [sampleRow] } :=
  ⟨Or.inl (by decide),
    postVote_invalid memoryStore 0 [sampleRow]
      { messageId := .num (.fin 1), voteType := .str sideways } (Or.inl (by decide))⟩

/-- C7. For every valid vote on an existing message (the fetch returns the row `cur`),
`POST /api/vote` issues, after the fetch, exactly one update keyed by the message id whose
field list has a single entry: `upvotes` set to the fetched upvotes + 1 for "upvote",
`downvotes` set to the fetched downvotes + 1 for "downvote", and no other field. When the
store answers the update with rows and no error, the response is 200 with status "success",
carrying the first returned row and the vote type. -/
theorem postVote_update {σ : Type} (supabase : StoreClient σ) (now : Nat) (s s1 s2 : σ)
    (d : VoteData) (cur : Row) (counter : String) (value : Int) (reply : Reply (List Row))
    (hvalid : validateVoteInput d = [])
    (hvt : (d.voteType = .str upvote ∧ counter = "upvotes" ∧ value = cur.upvotes + 1) ∨
      (d.voteType = .str downvote ∧ counter = "downvotes" ∧ value = cur.downvotes + 1))
    (hfetch : supabase.selectSingle d.messageId s = ({ data := some cur, error := none }, s1))
    (hupd : supabase.updateSelect [(counter, value)] d.messageId s1 = (reply, s2)) :
    (postVote supabase now d s).calls =
      [.selectSingle d.messageId, .update [(counter, value)] d.messageId] ∧
    (∀ rows, reply = { data := some rows, error := none } →
      (postVote supabase now d s).response.code = 200 ∧
      (postVote supabase now d s).response.body.status = "success" ∧
      (postVote supabase now d s).response.body.data =
        some { message := rows.head?, voteType := some d.voteType, timestamp := some now }) := by
  have hb : buildUpdateData d.voteType cur = [(counter, value)] := by
    rcases hvt with ⟨h, hc, hval⟩ | ⟨h, hc, hval⟩
    · simp [buildUpdateData, h, hc, hval]
    · have hne : downvote ≠ upvote := by decide
      simp [buildUpdateData, h, hc, hval, hne]
  have hp := postVote_of_fetched supabase now d s s1 s2 cur reply hvalid hfetch
    (by rw [hb]; exact hupd)
  rw [hp, hb]
  refine ⟨rfl, ?_⟩
  intro rows hrows
  subst hrows
  exact ⟨rfl, rfl, rfl⟩

/-- Witness of C7: an upvote of the stored row with id 1 and three upvotes. -/
theorem postVote_update_witness :
    validateVoteInput upvoteOne = [] ∧
    memoryStore.selectSingle upvoteOne.messageId [sampleRow]
      = ({ data := some sampleRow, error := none }, [sampleRow]) ∧
    (postVote memoryStore 9 upvoteOne [sampleRow]).calls =
      [.selectSingle upvoteOne.messageId, .update [("upvotes", 4)] upvoteOne.messageId] ∧
    (∀ rows, ({ data := some [upvotedRow], error := none } : Reply (List Row))
        = { data := some rows, error := none } →
      (postVote memoryStore 9 upvoteOne [sampleRow]).response.code = 200 ∧
      (postVote memoryStore 9 upvoteOne [sampleRow]).response.body.status = "success" ∧
      (postVote memoryStore 9 upvoteOne [sampleRow]).response.body.data =
        some { message := rows.head?, voteType := some upvoteOne.voteType,
               timestamp := some 9 }) :=
  ⟨by decide, by decide,
    postVote_update memoryStore 9 [sampleRow] [sampleRow] [upvotedRow] upvoteOne sampleRow
      "upvotes" 4 { data := some [upvotedRow], error := none } (by decide)
      (Or.inl ⟨rfl, rfl, by decide⟩) (by decide) (by decide)⟩

/-- C9. For every valid vote request whose fetch returns no record, `POST /api/vote`
answers 404 with status "error", and the fetch is the only store query it issues: no
update. -/
theorem postVote_not_found {σ : Type} (supabase : StoreClient σ) (now : Nat) (s s1 : σ)
    (d : VoteData) (fetched : Reply Row) (hvalid : validateVoteInput d = [])
    (hfetch : supabase.selectSingle d.messageId s = (fetched, s1))
    (hnone : fetched.data = none) :
    postVote supabase now d s =
      { response :=
          { code := 404
            body := { message := "Message not found", status := "error",
                      error := some "No message found with the provided ID" } }
        calls := [.selectSingle d.messageId], store := s1 } :=
  postVote_of_fetch_failed supabase now d s s1 fetched hvalid hfetch (Or.inr hnone)

/-- Witness of C9: an upvote of id 2 on a table that only holds id 1. -/
theorem postVote_not_found_witness :
    validateVoteInput upvoteTwo = [] ∧
    (memoryStore.selectSingle upvoteTwo.messageId [sampleRow]).1.data = none ∧
    postVote memoryStore 0 upvoteTwo [sampleRow] =
      { response :=
          { code := 404
            body := { message := "Message not found", status := "error",
                      error := some "No message found with the provided ID" } }
        calls := [.selectSingle upvoteTwo.messageId], store := [sampleRow] } :=
  ⟨by decide, by decide,
    postVote_not_found memoryStore 0 [sampleRow] [sampleRow] upvoteTwo
      (memoryStore.selectSingle upvoteTwo.messageId [sampleRow]).1 (by decide) rfl
      (by decide)⟩

/-- C10 (counterexample). On a store whose fetch fails with the error "connection refused",
a valid vote is answered 404, not 500. -/
theorem postVote_fetch_error_is_404 :
    validateVoteInput upvoteOne = [] ∧
    (failingStore.selectSingle upvoteOne.messageId ()).1.error
      = some { message := "connection refused" } ∧
    (postVote failingStore 0 upvoteOne ()).response =
      { code := 404
        body := { message := "Message not found", status := "error",
                  error := some "No message found with the provided ID" } } := by
  decide

/-- C10 (amended). For every valid vote request: if the fetch of the current record fails
with a store error, `POST /api/vote` answers 404 "Message not found" (the store's message is
not attached) and issues no update; if the fetch returns the record and the update fails
with a store error, it answers 500 with the store's error message attached. -/
theorem postVote_store_errors {σ : Type} (supabase : StoreClient σ) (now : Nat) (s s1 : σ)
    (d : VoteData) (fetched : Reply Row) (hvalid : validateVoteInput d = [])
    (hfetch : supabase.selectSingle d.messageId s = (fetched, s1)) :
    (∀ e, fetched.error = some e →
      postVote supabase now d s =
        { response :=
            { code := 404
              body := { message := "Message not found", status := "error",
                        error := some "No message found with the provided ID" } }
          calls := [.selectSingle d.messageId], store := s1 }) ∧
    (∀ cur reply s2 e, fetched = { data := some cur, error := none } →
      supabase.updateSelect (buildUpdateData d.voteType cur) d.messageId s1 = (reply, s2) →
      reply.error = some e →
      postVote supabase now d s =
        { response :=
            { code := 500
              body := { message := "Failed to update vote", status := "error",
                        error := some e.message } }
          calls := [.selectSingle d.messageId,
                    .update (buildUpdateData d.voteType cur) d.messageId]
          store := s2 }) := by
  constructor
  · intro e he
    exact postVote_of_fetch_failed supabase now d s s1 fetched hvalid hfetch
      (Or.inl (by simp [he]))
  · intro cur reply s2 e hcur hupd he
    subst hcur
    rw [postVote_of_fetched supabase now d s s1 s2 cur reply hvalid hfetch hupd, he]

/-- Witness of C10 (amended): an upvote on a table that refuses updates is answered 500 with
the store's message. -/
theorem postVote_store_errors_witness :
    validateVoteInput upvoteOne = [] ∧
    postVote readOnlyStore 0 upvoteOne [sampleRow] =
      { response :=
          { code := 500
            body := { message := "Failed to update vote", status := "error",
                      error := some "permission denied" } }
        calls := [.selectSingle upvoteOne.messageId,
                  .update (buildUpdateData upvoteOne.voteType sampleRow) upvoteOne.messageId]
        store := [sampleRow] } :=
  ⟨by decide,
    (postVote_store_errors readOnlyStore 0 [sampleRow] [sampleRow] upvoteOne
      { data := some sampleRow, error := none } (by decide) (by decide)).2 sampleRow
      { data := none, error := some { message := "permission denied" } } [sampleRow]
      { message := "permission denied" } rfl (by decide) rfl⟩

/-! ## Claim on the response envelopes -/

/-- C11 (counterexample). Three error envelopes without any timestamp: the 400 of
`POST /api/messages` on an empty body, the 404 of `POST /api/vote` on an unknown id, and the
500 of `GET /api/messages` on a failing store. -/
theorem error_envelopes_lack_timestamp :
    (postMessages memoryStore 7
      { name := .undefined, message := .undefined, rating := .undefined } []).response.code
        = 400 ∧
    (postMessages memoryStore 7
      { name := .undefined, message := .undefined, rating := .undefined } []).response.timestamp
        = none ∧
    (postVote memoryStore 7 upvoteTwo [sampleRow]).response.code = 404 ∧
    (postVote memoryStore 7 upvoteTwo [sampleRow]).response.timestamp = none ∧
    (getMessages failingStore 7 ()).response.code = 500 ∧
    (getMessages failingStore 7 ()).response.timestamp = none := by
  decide

/-- C11 (amended). Every response envelope produced by `GET /api/messages`,
`POST /api/messages` and `POST /api/vote` either has status "success", code 200 or 201, and
carries the response-time timestamp, or has status "error", code 400, 404 or 500, and
carries no timestamp. -/
theorem timestamp_on_success_only {σ : Type} (supabase : StoreClient σ) (now : Nat) (s : σ)
    (create : CreateBody) (vote : VoteData) :
    (((getMessages supabase now s).response.body.status = "success" ∧
        (getMessages supabase now s).response.code = 200 ∧
        (getMessages supabase now s).response.timestamp = some now) ∨
      ((getMessages supabase now s).response.body.status = "error" ∧
        (getMessages supabase now s).response.code = 500 ∧
        (getMessages supabase now s).response.timestamp = none)) ∧
    (((postMessages supabase now create s).response.body.status = "success" ∧
        (postMessages supabase now create s).response.code = 201 ∧
        (postMessages supabase now create s).response.timestamp = some now) ∨
      ((postMessages supabase now create s).response.body.status = "error" ∧
        ((postMessages supabase now create s).response.code = 400 ∨
          (postMessages supabase now create s).response.code = 500) ∧
        (postMessages supabase now create s).response.timestamp = none)) ∧
    (((postVote supabase now vote s).response.body.status = "success" ∧
        (postVote supabase now vote s).response.code = 200 ∧
        (postVote supabase now vote s).response.timestamp = some now) ∨
      ((postVote supabase now vote s).response.body.status = "error" ∧
        ((postVote supabase now vote s).response.code = 400 ∨
          (postVote supabase now vote s).response.code = 404 ∨
          (postVote supabase now vote s).response.code = 500) ∧
        (postVote supabase now vote s).response.timestamp = none)) := by
  refine ⟨?_, ?_, ?_⟩
  · unfold getMessages
    simp only []
    repeat' split
    all_goals simp [Response.timestamp, internalError]
  · unfold postMessages
    simp only []
    repeat' split
    all_goals simp [Response.timestamp, internalError, validationFailed]
  · unfold postVote
    simp only []
    repeat' split
    all_goals simp [Response.timestamp, internalError, validationFailed, messageNotFound]

/-! ## Claim on the client-side validation -/

/-- Away from zero the truthiness guard of line 29 changes nothing: a falsy number other
than zero is `NaN`, which fails both comparisons anyway. -/
theorem outOfRange_num_of_ne_zero (r : JSNumber) (h0 : r ≠ .fin 0) :
    (RatingValue.num r).outOfRange = (r.lt (.fin 1) || JSNumber.lt (.fin 5) r) := by
  cases r with
  | fin q =>
    have hq : q ≠ 0 := fun h => h0 (by rw [h])
    simp [RatingValue.outOfRange, RatingValue.truthy, JSNumber.truthy, RatingValue.toNumber, hq]
  | _ => simp [RatingValue.outOfRange, RatingValue.truthy, JSNumber.truthy,
      RatingValue.toNumber, JSNumber.lt]

/-- For every draft whose rating is a number other than zero, `validateForm` sets no key if
and only if `validateMessageInput` returns the empty list for the same record. -/
theorem validateForm_mirrors_of_ne_zero (n m : JSString) (r : JSNumber) (h0 : r ≠ .fin 0) :
    (validateForm { name := n, message := m, rating := .num r }).keys = [] ↔
      validateMessageInput { name := .str n, message := .str m, rating := .num r } = .ok [] := by
  have h1 := missingOrBlank_of_stringOrMissing (.str n) rfl
  have h2 := missingOrBlank_of_stringOrMissing (.str m) rfl
  rw [validateMessageInput_of_checks
    { name := .str n, message := .str m, rating := .num r } _ _ h1 h2]
  have hmem := (mem_errors_iff (JSValue.str n).isMissingOrBlank
    (JSValue.str m).isMissingOrBlank (RatingValue.num r).outOfRange
    ((JSValue.str n).longerThan 100) ((JSValue.str m).longerThan 1000)).2.2.2.2.2
  have hl1 : (JSValue.str n).longerThan 100 = false ↔ ¬ n.length > 100 := by
    rw [← Bool.not_eq_true, longerThan_str]
  have hl2 : (JSValue.str m).longerThan 1000 = false ↔ ¬ m.length > 1000 := by
    rw [← Bool.not_eq_true, longerThan_str]
  have hr := outOfRange_num_of_ne_zero r h0
  constructor
  · intro hk
    refine congrArg Except.ok (hmem.mpr ?_)
    rw [hl1, hl2, hr]
    by_cases c1 : trim n = [] <;> by_cases c2 : n.length > 100 <;>
      by_cases c3 : trim m = [] <;> by_cases c4 : m.length > 1000 <;>
      cases c5 : (r.lt (.fin 1) || JSNumber.lt (.fin 5) r) <;>
      simp [validateForm, FormErrors.keys, FormRating.toNumber, JSValue.isMissingOrBlank,
        c1, c2, c3, c4, c5] at hk ⊢
  · intro hv
    have hall := hmem.mp (Except.ok.inj hv)
    rw [hl1, hl2, hr] at hall
    obtain ⟨a1, a2, a3, a4, a5⟩ := hall
    simp only [JSValue.isMissingOrBlank, decide_eq_false_iff_not] at a1 a2
    simp [validateForm, FormErrors.keys, FormRating.toNumber, a1, a2, a3, a4, a5]

/-- The number 0 is not a rating the form can hold (see `formState_rating`); on a record
with that rating the two validators would differ, the server-side test being guarded by the
truthiness of the rating. -/
theorem validateForm_rating_zero_differs :
    (validateForm { name := alice, message := greatJob, rating := .num (.fin 0) }).keys
      = ["rating"] ∧
    (validateForm { name := alice, message := greatJob, rating := .num (.fin 0) }).rating
      = some "Rating must be between 1 and 5" ∧
    validateMessageInput
      { name := .str alice, message := .str greatJob, rating := .num (.fin 0) } = .ok [] := by
  decide

theorem foldl_handleInputChange_rating (changes : List InputChange) (d : FormData)
    (hd : d.rating = .num (.fin 5) ∨ ∃ o, d.rating = .option o) :
    (changes.foldl (fun prev e => handleInputChange e prev) d).rating = .num (.fin 5) ∨
      ∃ o, (changes.foldl (fun prev e => handleInputChange e prev) d).rating = .option o := by
  induction changes generalizing d with
  | nil => exact hd
  | cons e rest ih =>
    apply ih
    cases e with
    | name value => exact hd
    | message value => exact hd
    | rating chosen => exact Or.inr ⟨chosen, rfl⟩

/-- The rating of every draft the form holds is the number 5 of the initial state or the
value string of a select option. -/
theorem formState_rating (changes : List InputChange) :
    (formState changes).rating = .num (.fin 5) ∨
      ∃ o, (formState changes).rating = .option o :=
  foldl_handleInputChange_rating changes initialFormData (Or.inl rfl)

/-- C12. For every draft the form holds (the state reached from the initial one by any
sequence of change events) whose rating is a number `n`, the name and message being strings,
`validateForm` returns no errors if and only if the server's `validateMessageInput` returns
the empty list for the record with the same name, message and rating. -/
theorem validateForm_agrees_on_drafts (changes : List InputChange) (n : JSNumber)
    (hnum : (formState changes).rating = .num n) :
    (validateForm (formState changes)).keys = [] ↔
      validateMessageInput
        { name := .str (formState changes).name, message := .str (formState changes).message,
          rating := .num n } = .ok [] := by
  have hn : n ≠ .fin 0 := by
    rcases formState_rating changes with h | ⟨o, h⟩
    · rw [hnum] at h
      have h5 : n = .fin 5 := FormRating.num.inj h
      rw [h5]
      decide
    · rw [hnum] at h
      exact absurd h (by simp)
  have hd : formState changes =
      { name := (formState changes).name, message := (formState changes).message,
        rating := .num n } := by
    rw [← hnum]
  rw [hd]
  exact validateForm_mirrors_of_ne_zero _ _ n hn

/-- Witness of C12: the draft after typing "Alice" and "Great job!", rating still 5. -/
theorem validateForm_agrees_on_drafts_witness :
    (formState aliceTyping).rating = .num (.fin 5) ∧
    ((validateForm (formState aliceTyping)).keys = [] ↔
      validateMessageInput
        { name := .str (formState aliceTyping).name,
          message := .str (formState aliceTyping).message,
          rating := .num (.fin 5) } = .ok []) :=
  ⟨by decide, validateForm_agrees_on_drafts aliceTyping (.fin 5) (by decide)⟩

/-! ## Claim on the optimistic vote update -/

/-- On an id that is a string or a finite number, `===` is equality. -/
theorem strictEquals_iff_eq (v messageId : JSValue)
    (hid : (∃ t, messageId = .str t) ∨ (∃ q, messageId = .num (.fin q))) :
    strictEquals v messageId = true ↔ v = messageId := by
  rcases hid with ⟨t, rfl⟩ | ⟨q, rfl⟩
  · cases v <;> simp [strictEquals]
  · cases v with
    | num a => cases a <;> simp [strictEquals]
    | _ => simp [strictEquals]

theorem handleVoteUpdate_getElem? (messageId voteType : JSValue) (prevMessages : List Row)
    (i : Nat) (msg : Row) (h : prevMessages[i]? = some msg) :
    (handleVoteUpdate messageId voteType prevMessages)[i]? =
      some (if strictEquals msg.id messageId then
        if voteType = .str upvote then { msg with upvotes := msg.upvotes + 1 }
        else { msg with downvotes := msg.downvotes + 1 }
      else msg) := by
  simp [handleVoteUpdate, List.getElem?_map, h]

/-- C13. For every message list, message id and vote type among "upvote" and "downvote",
the optimistic update of `handleVote` returns a list of the same length in which, position
by position, the message keeps its id, name, message, rating and creation time; a message
whose id is `===` to the given id has the counter named by the vote type increased by 1 and
its other counter unchanged; a message with another id is unchanged; and when no message
has that id the list is unchanged. On a string or finite-number id, `===` is equality. -/
theorem handleVoteUpdate_frame (messageId voteType : JSValue) (prevMessages : List Row)
    (hvt : voteType = .str upvote ∨ voteType = .str downvote) :
    (handleVoteUpdate messageId voteType prevMessages).length = prevMessages.length ∧
    (∀ (i : Nat) (msg : Row), prevMessages[i]? = some msg →
      ∃ updated : Row, (handleVoteUpdate messageId voteType prevMessages)[i]? = some updated ∧
        updated.id = msg.id ∧ updated.name = msg.name ∧ updated.message = msg.message ∧
        updated.rating = msg.rating ∧ updated.created_at = msg.created_at ∧
        (strictEquals msg.id messageId = true → voteType = .str upvote →
          updated.upvotes = msg.upvotes + 1 ∧ updated.downvotes = msg.downvotes) ∧
        (strictEquals msg.id messageId = true → voteType = .str downvote →
          updated.downvotes = msg.downvotes + 1 ∧ updated.upvotes = msg.upvotes) ∧
        (strictEquals msg.id messageId = false → updated = msg)) ∧
    ((∀ msg ∈ prevMessages, strictEquals msg.id messageId = false) →
      handleVoteUpdate messageId voteType prevMessages = prevMessages) ∧
    (((∃ t, messageId = .str t) ∨ (∃ q, messageId = .num (.fin q))) →
      ∀ v, strictEquals v messageId = true ↔ v = messageId) := by
  have hne : JSValue.str downvote ≠ JSValue.str upvote := by decide
  refine ⟨by simp [handleVoteUpdate], ?_, ?_, fun hid v => strictEquals_iff_eq v messageId hid⟩
  · intro i msg hmsg
    refine ⟨_, handleVoteUpdate_getElem? messageId voteType prevMessages i msg hmsg, ?_⟩
    cases heq : strictEquals msg.id messageId
    · simp
    · rcases hvt with h | h
      · have hud : upvote ≠ downvote := by decide
        subst h; simp [hud]
      · subst h; simp [hne]
  · intro hall
    unfold handleVoteUpdate
    conv_rhs => rw [← List.map_id prevMessages]
    apply List.map_congr_left
    intro msg hmem
    simp [hall msg hmem]

/-- Witness of C13: an upvote of id 1 in the list of the two sample rows. -/
theorem handleVoteUpdate_frame_witness :
    (JSValue.str upvote = .str upvote ∨ JSValue.str upvote = .str downvote) ∧
    (handleVoteUpdate (.num (.fin 1)) (.str upvote) sampleMessages).length
      = sampleMessages.length ∧
    (∀ (i : Nat) (msg : Row), sampleMessages[i]? = some msg →
      ∃ updated : Row, (handleVoteUpdate (.num (.fin 1)) (.str upvote) sampleMessages)[i]?
          = some updated ∧
        updated.id = msg.id ∧ updated.name = msg.name ∧ updated.message = msg.message ∧
        updated.rating = msg.rating ∧ updated.created_at = msg.created_at ∧
        (strictEquals msg.id (.num (.fin 1)) = true → JSValue.str upvote = .str upvote →
          updated.upvotes = msg.upvotes + 1 ∧ updated.downvotes = msg.downvotes) ∧
        (strictEquals msg.id (.num (.fin 1)) = true → JSValue.str upvote = .str downvote →
          updated.downvotes = msg.downvotes + 1 ∧ updated.upvotes = msg.upvotes) ∧
        (strictEquals msg.id (.num (.fin 1)) = false → updated = msg)) ∧
    ((∀ msg ∈ sampleMessages, strictEquals msg.id (.num (.fin 1)) = false) →
      handleVoteUpdate (.num (.fin 1)) (.str upvote) sampleMessages = sampleMessages) ∧
    (((∃ t, JSValue.num (.fin 1) = .str t) ∨ (∃ q, JSValue.num (.fin 1) = .num (.fin q))) →
      ∀ v, strictEquals v (.num (.fin 1)) = true ↔ v = .num (.fin 1)) :=
  ⟨Or.inl rfl,
    handleVoteUpdate_frame (.num (.fin 1)) (.str upvote) sampleMessages (Or.inl rfl)⟩

end FeedbackBoard
